import Mathlib

/-!
Verification of the checkpoint_bench repository.

The development shallowly embeds the two components the claims are about:

* `src/checkpoint_server.py` — `DLIOCheckpointRPCServer`: per-rank behaviour of
  `do_checkpoint`, the model-profile configuration performed in `__init__`,
  and the result record built on the control rank.
* `src/checkpoint_client.py` — `DLIOCheckpointRPCClient`: the pass/step driver
  loop (`do_checkpoint`, `do_checkpoint_pass`, `do_passes`), result-CSV
  persistence (`write_result_csv`), the iostat subprocess lifecycle
  (`start_iostat_subprocess` / `stop_iostat_subprocess` and who calls them),
  and the teardown paths of `main` together with the `atexit` hook.

External collaborators (MPI communicator, the DLIO checkpoint mechanism,
wall-clock time, the operating system's process table and file system) are
made explicit: broadcast/barrier become value passing and atomic rounds,
timestamps become rational-number parameters, spawned processes become
entries of an explicit set of running process ids, and the file system
becomes an optional file content.
-/

namespace CheckpointBench

/-! ### Server side: `DLIOCheckpointRPCServer` (src/checkpoint_server.py) -/

/-- `dlio_benchmark.common.enumerations.CheckpointLocationType` values used by
the server. -/
inductive CheckpointLocationType where
  | RANK_ZERO
  | ALL_RANKS
deriving DecidableEq, Repr

/-- The slice of the DLIO `ConfigArguments` singleton that
`DLIOCheckpointRPCServer.__init__` mutates and `do_checkpoint` reads
(src/checkpoint_server.py lines 61-93 and 133-144). -/
structure DlioArgs where
  num_layers : Nat
  model_size : Nat
  optimization_groups : List Nat
  layer_parameters : List Nat
  checkpoint_type : CheckpointLocationType
  pipeline_parallelism : Nat
  tensor_parallelism : Nat
deriving DecidableEq, Repr

def megatron : String := "megatron"

def llama3_405b : String := "llama3-405b"

def llama3_7b : String := "llama3-7b"

/-- The per-model configuration block of `DLIOCheckpointRPCServer.__init__`
(src/checkpoint_server.py lines 66-93).  Each Python assignment to
`self.dlio_args` becomes one sequential record update, so a field assigned
twice keeps the later value, exactly as in the source. -/
def configure_model (model : String) (args : DlioArgs) : DlioArgs :=
  if model = megatron then
    let args := { args with optimization_groups := [1009254400, 865075200, 793600] }
    let args := { args with optimization_groups := [1009254, 865075, 793] }
    let args := { args with num_layers := 44 }
    let args := { args with layer_parameters := [16220160, 2621440] }
    let args := { args with layer_parameters := [1622016, 262144] }
    let args := { args with model_size := 30102 }
    let args := { args with checkpoint_type := CheckpointLocationType.ALL_RANKS }
    let args := { args with pipeline_parallelism := 2 }
    { args with tensor_parallelism := 4 }
  else if model = llama3_405b then
    let args := { args with num_layers := 80 }
    let args := { args with model_size := 16384 }
    let args := { args with optimization_groups := [1009254400, 865075200, 793600] }
    let args := { args with layer_parameters := [4358152160, 704347824] }
    let args := { args with checkpoint_type := CheckpointLocationType.ALL_RANKS }
    let args := { args with pipeline_parallelism := 2 }
    { args with tensor_parallelism := 4 }
  else if model = llama3_7b then
    let args := { args with num_layers := 80 }
    let args := { args with model_size := 16384 }
    let args := { args with optimization_groups := [10092544, 8650752, 7936] }
    let args := { args with layer_parameters := [43581521, 7043478] }
    let args := { args with checkpoint_type := CheckpointLocationType.ALL_RANKS }
    let args := { args with pipeline_parallelism := 2 }
    { args with tensor_parallelism := 4 }
  else args

/-- The `result_dict` built by `do_checkpoint` on rank 0
(src/checkpoint_server.py lines 133-144).  The Python code stores
`str(optimization_groups)` and `str(layer_parameters)`; the record keeps the
underlying lists, which carry the same information. -/
structure ResultRecord where
  num_layers : Nat
  model_size : Nat
  optimization_groups : List Nat
  layer_parameters : List Nat
  checkpoint_type : CheckpointLocationType
  pipeline_parallelism : Nat
  tensor_parallelism : Nat
  checkpoint_time : ℚ
  step : Option Int
  comm_size : Nat
deriving DecidableEq, Repr

/-- Per-rank mutable server state touched by `do_checkpoint`:
`checkpoint_log` records every `checkpoint_mechanism.checkpoint(epoch, step)`
invocation this rank has made, and `checkpoint_times` is
`self.checkpoint_times`. -/
structure ServerRankState where
  checkpoint_log : List (Nat × Option Int)
  checkpoint_times : List ℚ
deriving DecidableEq, Repr

/-- One execution of `DLIOCheckpointRPCServer.do_checkpoint`
(src/checkpoint_server.py lines 105-147) as seen by a single rank.

* `comm_size` is `self.comm.size`; `my_rank` is `self.my_rank`.
* `cur_step` is this rank's own `cur_step` argument (`None` in the perpetual
  loop of non-control ranks, src/checkpoint_server.py line 166).
* `root_cur_step` is the `cur_step` argument received by rank 0 in the same
  collective round; `comm.bcast(step, root=0)` hands every rank rank 0's
  local `step`, which on rank 0 itself is its own `cur_step` (lines 111-117).
* `t_start` and `t_end` are the wall-clock readings of `time.time()` taken
  just before `checkpoint_mechanism.checkpoint(1, step)` (line 124) and just
  after the post-checkpoint `comm.Barrier()` returns (line 127).

The two barriers make the round atomic: every rank has performed its
checkpoint call before rank 0 proceeds past line 126 to build the reply, so
the function returns the updated rank state together with the reply
(`result_dict` on rank 0, `None` elsewhere). -/
def server_do_checkpoint (args : DlioArgs) (comm_size : Nat) (my_rank : Nat)
    (cur_step root_cur_step : Option Int) (st : ServerRankState)
    (t_start t_end : ℚ) : ServerRankState × Option ResultRecord :=
  let step0 : Option Int := if my_rank = 0 then cur_step else none
  let step : Option Int := if my_rank = 0 then step0 else root_cur_step
  let log := st.checkpoint_log ++ [(1, step)]
  let times := st.checkpoint_times ++ [t_end - t_start]
  let st2 : ServerRankState := ⟨log, times⟩
  if my_rank = 0 then
    (st2, some {
      num_layers := args.num_layers
      model_size := args.model_size
      optimization_groups := args.optimization_groups
      layer_parameters := args.layer_parameters
      checkpoint_type := args.checkpoint_type
      pipeline_parallelism := args.pipeline_parallelism
      tensor_parallelism := args.tensor_parallelism
      checkpoint_time := times.getLastD 0
      step := step
      comm_size := comm_size })
  else (st2, none)

/-! ### Client side: `DLIOCheckpointRPCClient` (src/checkpoint_client.py) -/

/-- One entry of `self.checkpoint_result_dicts`: the dictionary returned over
RPC by the server, augmented by `do_checkpoint` with `step`, `pass_num`,
`num_steps` and `num_passes` (src/checkpoint_client.py lines 125-137).  The
`result['step'] = step` assignment overwrites the `step` key already present
in the server dictionary, so the server payload is kept without its own step
field duplicated. -/
structure ClientRecord where
  server : ResultRecord
  step : Nat
  pass_num : Nat
  num_steps : Nat
  num_passes : Nat
deriving DecidableEq, Repr

/-- `DLIOCheckpointRPCClient.do_checkpoint(step, pass_num)`
(src/checkpoint_client.py lines 125-137): one RPC round trip, metadata
augmentation, and append to the result log.  `rpc` is the remote
`do_checkpoint` endpoint. -/
def client_do_checkpoint (rpc : Nat → ResultRecord) (ns np : Nat)
    (step pass_num : Nat) (log : List ClientRecord) : List ClientRecord :=
  log ++ [{ server := rpc step, step := step, pass_num := pass_num,
            num_steps := ns, num_passes := np }]

/-- `DLIOCheckpointRPCClient.do_checkpoint_pass(num_steps, pass_num)`
(src/checkpoint_client.py lines 139-143): `for step in range(1, num_steps+1)`
invoke `do_checkpoint(step, pass_num)` (the inter-checkpoint sleep has no
effect on the result log). -/
def client_do_checkpoint_pass (rpc : Nat → ResultRecord) (ns np : Nat)
    (num_steps pass_num : Nat) (log : List ClientRecord) : List ClientRecord :=
  (List.range num_steps).foldl
    (fun acc i => client_do_checkpoint rpc ns np (i + 1) pass_num acc) log

/-- `DLIOCheckpointRPCClient.do_passes(num_passes)` restricted to the result
log (src/checkpoint_client.py lines 150-154): `for pass_num in
range(1, num_passes+1)` invoke `do_checkpoint_pass(self.num_steps, pass_num)`.
When called as `do_passes()` the default resolves to `self.num_passes`, i.e.
`num_passes = np`.  The iostat start/stop on lines 146-158 is modelled
separately by `run_io_*` below, as it does not touch the result log. -/
def client_do_passes (rpc : Nat → ResultRecord) (ns np : Nat)
    (num_passes : Nat) (log : List ClientRecord) : List ClientRecord :=
  (List.range num_passes).foldl
    (fun acc p => client_do_checkpoint_pass rpc ns np ns (p + 1) acc) log

/-! ### Result-CSV persistence (src/checkpoint_client.py lines 118-123) -/

/-- The CSV field names: keys of the server dictionary
(src/checkpoint_server.py lines 133-144) in insertion order, followed by the
keys added by the client (`step` is already present so it keeps its
position, src/checkpoint_client.py lines 132-135). -/
def record_fieldnames : List String :=
  [ "num_layers", "model_size", "optimization_groups", "layer_parameters",
    "checkpoint_type", "pipeline_parallelism", "tensor_parallelism",
    "checkpoint_time", "step", "pass_num", "num_steps", "num_passes"]

/-- One CSV data row of the results table, fields rendered as text in the
order of `record_fieldnames`. -/
def record_to_row (r : ClientRecord) : List String :=
  [toString r.server.num_layers, toString r.server.model_size,
   toString r.server.optimization_groups, toString r.server.layer_parameters,
   toString (repr r.server.checkpoint_type),
   toString r.server.pipeline_parallelism,
   toString r.server.tensor_parallelism, toString r.server.checkpoint_time,
   toString r.step, toString r.pass_num, toString r.num_steps,
   toString r.num_passes]

def indexErrorMsg : String := "IndexError: list index out of range"

/-- `DLIOCheckpointRPCClient.write_result_csv`
(src/checkpoint_client.py lines 118-123).  The return value is the final
content of `checkpoint_bench_results.csv` on disk (`none` would mean the
file was never created) together with the outcome of the call.

Faithful ordering from the source: `open(self.results_csv_filename, 'w')`
on line 119 creates (or truncates to empty) the file *before*
`self.checkpoint_result_dicts[0]` on line 120 is evaluated; on an empty
result log that subscript raises `IndexError`, leaving the already-created
empty file behind. -/
def write_result_csv (log : List ClientRecord) :
    Option (List (List String)) × Except String Unit :=
  let file : List (List String) := []
  match log with
  | [] => (some file, Except.error indexErrorMsg)
  | r :: rs => (some (record_fieldnames :: (r :: rs).map record_to_row),
                Except.ok ())

/-! ### iostat subprocess lifecycle (src/checkpoint_client.py lines 80-92,
145-158) -/

/-- The operating-system view of the iostat sampling subprocesses together
with the client's single `self.iostat_process` handle.  `running` lists the
ids of sampling processes that have been spawned and not yet stopped;
`next_pid` is a fresh-id supply; `handle` is the Popen object currently
stored on the client (spawning overwrites it). -/
structure IoState where
  next_pid : Nat
  running : List Nat
  handle : Option Nat
deriving DecidableEq, Repr

/-- The initial state: no sampling process, `self.iostat_process = None`
(src/checkpoint_client.py line 76). -/
def io_init : IoState := ⟨0, [], none⟩

/-- `start_iostat_subprocess` (src/checkpoint_client.py lines 87-89):
`subprocess.Popen` spawns a fresh sampling process and the handle is
overwritten with the new process, whatever it held before. -/
def start_iostat (s : IoState) : IoState :=
  ⟨s.next_pid + 1, s.running ++ [s.next_pid], some s.next_pid⟩

/-- The process-termination part of `stop_iostat_subprocess`
(src/checkpoint_client.py lines 91-93): SIGINT plus `communicate()` ends the
process referenced by `self.iostat_process` — and only that one. -/
def stop_iostat (s : IoState) : IoState :=
  match s.handle with
  | none => s
  | some p => ⟨s.next_pid, s.running.filter (fun q => ¬ q = p), s.handle⟩

/-- The iostat effect of `setup` (src/checkpoint_client.py lines 80-85):
`if self.collect_iostat: self.start_iostat_subprocess()`. -/
def run_io_setup (collect_iostat : Bool) (s : IoState) : IoState :=
  if collect_iostat then start_iostat s else s

/-- The iostat effect of the head of `do_passes`
(src/checkpoint_client.py lines 146-148): the same unconditional
`if self.collect_iostat: self.start_iostat_subprocess()` again — this is the
state in force while the checkpoint passes run. -/
def run_io_passes_start (collect_iostat : Bool) (s : IoState) : IoState :=
  if collect_iostat then start_iostat s else s

/-- The iostat effect of the tail of `do_passes`
(src/checkpoint_client.py lines 156-158):
`if self.collect_iostat: self.stop_iostat_subprocess()`. -/
def run_io_passes_stop (collect_iostat : Bool) (s : IoState) : IoState :=
  if collect_iostat then stop_iostat s else s

/-! ### Teardown execution count (src/checkpoint_client.py lines 80-85,
160-176) -/

/-- The ways a run that has completed `setup` can end: `do_passes` returns
normally, raises an uncaught exception, or is interrupted by Ctrl+C
(`KeyboardInterrupt`). -/
inductive ExitPath where
  | normal
  | uncaughtError
  | interrupt
deriving DecidableEq, Repr

/-- Number of teardown callbacks registered with the interpreter's `atexit`
registry by `setup` (src/checkpoint_client.py line 85:
`atexit.register(self.teardown)`).  Registered hooks run once at interpreter
exit on every one of the three paths: after a normal return, after an
uncaught exception has propagated, and after the `exit(1)` in the
`KeyboardInterrupt` handler. -/
def atexit_teardown_hooks : Nat := 1

/-- Explicit `client.teardown()` calls executed inside `main`
(src/checkpoint_client.py lines 168-176): line 173 runs only when
`do_passes` returned normally; an uncaught exception skips it, and a
`KeyboardInterrupt` jumps to the handler (lines 174-176) before it. -/
def explicit_teardown_calls : ExitPath → Nat
  | ExitPath.normal => 1
  | ExitPath.uncaughtError => 0
  | ExitPath.interrupt => 0

/-- Total number of executions of `DLIOCheckpointRPCClient.teardown` in one
run that completed `setup` and then ended on the given path: the explicit
call in `main`, plus the `atexit` hook at interpreter exit (never
unregistered). -/
def teardown_executions (p : ExitPath) : Nat :=
  explicit_teardown_calls p + atexit_teardown_hooks

/-! ### iostat output parsing (src/checkpoint_client.py lines 91-111) -/

def deviceLabel : String := "Device"

/-- `charsLead p c` holds when the character list `p` is an initial
segment of `c`. -/
def charsLead : List Char → List Char → Bool
  | [], _ => true
  | _ :: _, [] => false
  | p :: ps, c :: cs => p == c && charsLead ps cs

/-- Python's `line.startswith("Device")` (src/checkpoint_client.py lines
102 and 104), spelled out over the character lists so that it evaluates by
kernel reduction. -/
def startsWithDevice (line : String) : Bool :=
  charsLead deviceLabel.data line.data

/-- Accumulating whitespace splitter: `cur` is the reversed current token. -/
def tokensAux : List Char → List Char → List String
  | [], cur => if cur.isEmpty then [] else [String.mk cur.reverse]
  | c :: cs, cur =>
      if c == ' ' then
        if cur.isEmpty then tokensAux cs []
        else String.mk cur.reverse :: tokensAux cs []
      else tokensAux cs (c :: cur)

/-- Python's `str.split()` with no argument: split on whitespace runs and
drop empty tokens.  The lines parsed here come from `splitlines`, so the
only whitespace left inside a line is spaces (and tabs, which iostat does
not emit). -/
def tokens (line : String) : List String :=
  tokensAux line.data []

/-- One iteration of the parsing loop of `stop_iostat_subprocess`
(src/checkpoint_client.py lines 98-107) over the accumulator
`(iostat_csv_header, iostat_csv_tuples)`:

* an empty line is skipped (lines 100-101);
* a line starting with `"Device"` sets the header if it is still unset
  (lines 102-103) and is never appended as data (lines 104-105);
* every other line is split and appended as one data row (line 107). -/
def iostat_parse_step (acc : Option (List String) × List (List String))
    (line : String) : Option (List String) × List (List String) :=
  if line = "" then acc
  else
    let hdr := if startsWithDevice line ∧ acc.1 = none
               then some (tokens line) else acc.1
    if startsWithDevice line then (hdr, acc.2)
    else (hdr, acc.2 ++ [tokens line])

/-- The parsing loop of `stop_iostat_subprocess`
(src/checkpoint_client.py lines 96-107) over the decoded, split lines of the
subprocess's accumulated stdout: returns the captured header (if any) and
the ordered data rows.  Line 109 then prepends the header to the rows to
form the written table. -/
def iostat_parse (lines : List String) :
    Option (List String) × List (List String) :=
  lines.foldl iostat_parse_step (none, [])

/-- A workload-shape profile used to instantiate witnesses. -/
def sampleArgs : DlioArgs :=
  ⟨44, 30102, [1009254, 865075, 793], [1622016, 262144],
   CheckpointLocationType.ALL_RANKS, 2, 4⟩

/-- Lexicographic order on (pass, step) pairs. -/
def pairLexLt (a b : Nat × Nat) : Prop :=
  a.1 < b.1 ∨ (a.1 = b.1 ∧ a.2 < b.2)

def bannerLine : String := "Linux 6.8.0 (host) 10/12/25 _x86_64_ (8 CPU)"

def blankLine : String := ""

def headerLine : String := "Device r/s w/s"

def dataLineA : String := "sda 1.0 2.0"

def dataLineB : String := "sdb 3.0 4.0"

/-- A representative accumulated iostat output: sysstat banner, blank line,
and two sampling intervals each re-emitting the device header. -/
def iostat_example_lines : List String :=
  [bannerLine, blankLine, headerLine, dataLineA, headerLine, dataLineB]

/-! ### Helper lemmas -/

theorem pairLexLt_ne {a b : Nat × Nat} (h : pairLexLt a b) : a ≠ b := by
  rintro rfl
  rcases h with h | ⟨_, h⟩ <;> exact absurd h (lt_irrefl _)

theorem foldl_concat_map {α β : Type} (f : α → β) (l : List α) :
    ∀ acc : List β, l.foldl (fun acc x => acc ++ [f x]) acc = acc ++ l.map f := by
  induction l with
  | nil => intro acc; simp
  | cons x xs ih => intro acc; simp [List.foldl_cons, ih, List.append_assoc]

theorem foldl_append_flatMap {α β : Type} (h : α → List β) (l : List α) :
    ∀ acc : List β, l.foldl (fun acc x => acc ++ h x) acc = acc ++ l.flatMap h := by
  induction l with
  | nil => intro acc; simp
  | cons x xs ih => intro acc; simp [List.foldl_cons, ih, List.append_assoc]

/-- Closed form of one checkpoint pass: the records for steps `1..k` with the
given pass number are appended to the log in step order. -/
theorem client_pass_eq (rpc : Nat → ResultRecord) (ns np k pn : Nat)
    (log : List ClientRecord) :
    client_do_checkpoint_pass rpc ns np k pn log
      = log ++ (List.range k).map (fun i =>
          { server := rpc (i + 1), step := i + 1, pass_num := pn,
            num_steps := ns, num_passes := np }) := by
  unfold client_do_checkpoint_pass client_do_checkpoint
  exact foldl_concat_map _ _ _

/-- Closed form of `do_passes`: the log is extended by one block of records
per pass, each block listing steps `1..ns` in order. -/
theorem client_passes_eq (rpc : Nat → ResultRecord) (ns np npar : Nat)
    (log : List ClientRecord) :
    client_do_passes rpc ns np npar log
      = log ++ (List.range npar).flatMap (fun p => (List.range ns).map (fun i =>
          { server := rpc (i + 1), step := i + 1, pass_num := p + 1,
            num_steps := ns, num_passes := np })) := by
  unfold client_do_passes
  simp only [client_pass_eq]
  exact foldl_append_flatMap _ _ _

/-- The (pass, step) projection of a complete run. -/
theorem client_pairs_eq (rpc : Nat → ResultRecord) (ns np : Nat) :
    (client_do_passes rpc ns np np []).map (fun r => (r.pass_num, r.step))
      = (List.range np).flatMap (fun p =>
          (List.range ns).map (fun s => (p + 1, s + 1))) := by
  rw [client_passes_eq]
  simp [List.map_flatMap, List.map_map, Function.comp_def]

theorem range_pairs_pairwise (ns np : Nat) :
    ((List.range np).flatMap (fun p =>
        (List.range ns).map (fun s => (p + 1, s + 1)))).Pairwise pairLexLt := by
  rw [List.pairwise_flatMap]
  constructor
  · intro p _
    rw [List.pairwise_map]
    exact (List.pairwise_lt_range ns).imp
      (fun h => Or.inr ⟨rfl, Nat.succ_lt_succ h⟩)
  · refine (List.pairwise_lt_range np).imp ?_
    intro p q hpq x hx y hy
    obtain ⟨s, _, rfl⟩ := List.mem_map.mp hx
    obtain ⟨t, _, rfl⟩ := List.mem_map.mp hy
    exact Or.inl (Nat.succ_lt_succ hpq)

theorem range_pairs_nodup (ns np : Nat) :
    ((List.range np).flatMap (fun p =>
        (List.range ns).map (fun s => (p + 1, s + 1)))).Nodup :=
  (range_pairs_pairwise ns np).imp pairLexLt_ne

theorem client_passes_length (rpc : Nat → ResultRecord) (ns np : Nat) :
    (client_do_passes rpc ns np np []).length = ns * np := by
  rw [client_passes_eq]
  simp [List.length_flatMap, Function.comp_def, List.map_const',
        List.sum_replicate, smul_eq_mul, Nat.mul_comm]

/-! ### Claim theorems -/

/-- C1: when the coordinator's `do_checkpoint(step)` is invoked on the
control rank (rank 0) of a group of size `n` with `step = s`, every rank `r`
receives the same step value `s` through the broadcast and invokes
`CheckpointMechanism.checkpoint(1, s)` within the barrier-bounded round —
hence before the control rank's reply is produced — and the control rank's
reply is a record whose `comm_size` field equals `n` and whose `step` field
equals `s`.  (`a` is the irrelevant local argument of a non-control rank.) -/
theorem C1_do_checkpoint_broadcast (args : DlioArgs) (n : Nat) (s : Int)
    (r : Nat) (a : Option Int) (st st0 : ServerRankState) (t0 t1 u0 u1 : ℚ) :
    (server_do_checkpoint args n r (if r = 0 then some s else a) (some s)
        st t0 t1).1.checkpoint_log
      = st.checkpoint_log ++ [(1, some s)]
    ∧ (server_do_checkpoint args n 0 (some s) (some s) st0 u0 u1).2.map
        ResultRecord.comm_size = some n
    ∧ (server_do_checkpoint args n 0 (some s) (some s) st0 u0 u1).2.map
        ResultRecord.step = some (some s) := by
  unfold server_do_checkpoint
  by_cases hr : r = 0 <;> simp [hr]

/-- C5: the `checkpoint_time` in the record returned by the control rank is
exactly the wall-clock span from just before the checkpoint call (`t0`) to
just after the post-checkpoint barrier (`t1`); under a monotone clock it is
non-negative, and it is freshly computed on every call — the returned value
is `t1 - t0` for the current call, whatever `st.checkpoint_times` already
holds. -/
theorem C5_checkpoint_time_fresh (args : DlioArgs) (n : Nat) (s : Option Int)
    (st : ServerRankState) (t0 t1 : ℚ) (h : t0 ≤ t1) :
    (server_do_checkpoint args n 0 s s st t0 t1).2.map
        ResultRecord.checkpoint_time = some (t1 - t0)
    ∧ 0 ≤ t1 - t0 := by
  refine ⟨?_, by linarith⟩
  unfold server_do_checkpoint
  simp

/-- Witness for C5 at a concrete input. -/
theorem C5_checkpoint_time_fresh_witness :
    (0 : ℚ) ≤ 1
    ∧ ((server_do_checkpoint sampleArgs 4 0 (some 5) (some 5) ⟨[], []⟩
          0 1).2.map ResultRecord.checkpoint_time = some (1 - 0)
       ∧ (0 : ℚ) ≤ 1 - 0) :=
  ⟨by norm_num,
   C5_checkpoint_time_fresh sampleArgs 4 (some 5) ⟨[], []⟩ 0 1 (by norm_num)⟩

/-- C9: on a non-control rank the coordinator's `do_checkpoint` ignores its
own `cur_step` argument — any two argument values produce identical state and
output — and the call returns no result record. -/
theorem C9_noncontrol_insensitive (args : DlioArgs) (n r : Nat)
    (a b root : Option Int) (st : ServerRankState) (t0 t1 : ℚ)
    (h : ¬ r = 0) :
    server_do_checkpoint args n r a root st t0 t1
      = server_do_checkpoint args n r b root st t0 t1
    ∧ (server_do_checkpoint args n r a root st t0 t1).2 = none := by
  unfold server_do_checkpoint
  simp [h]

/-- Witness for C9 at rank 1 with two different local arguments. -/
theorem C9_noncontrol_insensitive_witness :
    ¬ (1 : Nat) = 0
    ∧ (server_do_checkpoint sampleArgs 4 1 (some 3) (some 7) ⟨[], []⟩ 0 1
         = server_do_checkpoint sampleArgs 4 1 (some 9) (some 7) ⟨[], []⟩ 0 1
       ∧ (server_do_checkpoint sampleArgs 4 1 (some 3) (some 7)
            ⟨[], []⟩ 0 1).2 = none) :=
  ⟨by decide,
   C9_noncontrol_insensitive sampleArgs 4 1 (some 3) (some 9) (some 7)
     ⟨[], []⟩ 0 1 (by decide)⟩

/-- C10: for the "megatron" profile the later duplicate assignments win:
`optimization_groups = [1009254, 865075, 793]` and
`layer_parameters = [1622016, 262144]`, and every result record returned by
`do_checkpoint` under this profile reports exactly these values. -/
theorem C10_megatron_profile (base : DlioArgs) (n : Nat) (s : Option Int)
    (st : ServerRankState) (t0 t1 : ℚ) :
    (configure_model megatron base).optimization_groups
        = [1009254, 865075, 793]
    ∧ (configure_model megatron base).layer_parameters = [1622016, 262144]
    ∧ (server_do_checkpoint (configure_model megatron base) n 0 s s st
          t0 t1).2.map
        (fun rd => (rd.optimization_groups, rd.layer_parameters))
      = some ([1009254, 865075, 793], [1622016, 262144]) := by
  unfold configure_model server_do_checkpoint
  simp [megatron]

/-- C2: a complete run of `do_passes` leaves exactly `ns * np` records in
the result log, their (pass, step) pairs are pairwise distinct, and in the
`ns = 3`, `np = 2` scenario the pass values are `[1,1,1,2,2,2]` and the step
values `[1,2,3,1,2,3]`. -/
theorem C2_do_passes_log (rpc : Nat → ResultRecord) (ns np : Nat) :
    (client_do_passes rpc ns np np []).length = ns * np
    ∧ ((client_do_passes rpc ns np np []).map
        (fun r => (r.pass_num, r.step))).Nodup
    ∧ (client_do_passes rpc 3 2 2 []).map ClientRecord.pass_num
        = [1, 1, 1, 2, 2, 2]
    ∧ (client_do_passes rpc 3 2 2 []).map ClientRecord.step
        = [1, 2, 3, 1, 2, 3] := by
  refine ⟨client_passes_length rpc ns np, ?_, rfl, rfl⟩
  rw [client_pairs_eq]
  exact range_pairs_nodup ns np

/-- C6: the (pass, step) pairs of the result log of a complete run appear in
strictly increasing lexicographic order — the order in which the sequential
driver completed the operations, since records are only ever appended. -/
theorem C6_result_log_order (rpc : Nat → ResultRecord) (ns np : Nat) :
    ((client_do_passes rpc ns np np []).map
        (fun r => (r.pass_num, r.step))).Pairwise pairLexLt := by
  rw [client_pairs_eq]
  exact range_pairs_pairwise ns np

/-- C3 counterexample: on the normal-return path `main` reaches the explicit
`client.teardown()` call and the `atexit` hook fires again at interpreter
exit, so teardown is executed twice — not exactly once. -/
theorem C3_counterexample : ¬ teardown_executions ExitPath.normal = 1 := by
  decide

/-- C3 amended: teardown is never skipped — it runs at least once on every
exit path — but it is not exactly-once: a normal return executes it twice
(the explicit call in `main` plus the `atexit` hook), while an uncaught
error or a Ctrl+C interrupt executes it exactly once (hook only). -/
theorem C3_teardown_every_path (p : ExitPath) :
    1 ≤ teardown_executions p
    ∧ teardown_executions ExitPath.normal = 2
    ∧ teardown_executions ExitPath.uncaughtError = 1
    ∧ teardown_executions ExitPath.interrupt = 1 := by
  cases p <;> decide

/-- C4 counterexample: with an empty result log, `write_result_csv` leaves
an empty results-table file on disk — `open(..., 'w')` creates the file
before the header derivation fails — contradicting "no empty results-table
file is created". -/
theorem C4_counterexample : (write_result_csv []).1 = some [] := by
  decide

/-- C4 amended: with an empty result log at teardown, persistence does raise
an error (the `IndexError` from deriving the header off the first record),
but an empty results-table file *is* created on disk, because the file is
opened for writing before the first record is accessed. -/
theorem C4_empty_log (log : List ClientRecord) (h : log = []) :
    (write_result_csv log).2 = Except.error indexErrorMsg
    ∧ (write_result_csv log).1 = some [] := by
  subst h
  exact ⟨rfl, rfl⟩

/-- Witness for C4 amended at the empty log. -/
theorem C4_empty_log_witness :
    ([] : List ClientRecord) = []
    ∧ ((write_result_csv ([] : List ClientRecord)).2
          = Except.error indexErrorMsg
       ∧ (write_result_csv ([] : List ClientRecord)).1 = some []) :=
  ⟨rfl, C4_empty_log [] rfl⟩

/-- C7 counterexample: with I/O-metrics collection enabled, after `setup`
has started the collector, the head of `do_passes` starts a second sampling
process, so two iostat processes are running at once — not at most one. -/
theorem C7_counterexample :
    ¬ (run_io_passes_start true (run_io_setup true io_init)).running.length
        ≤ 1 := by
  decide

/-- C7 amended: when collection is enabled, `setup` starts one sampling
process and `do_passes` unconditionally starts a second one — the start in
`do_passes` always spawns a fresh process regardless of the current state,
and overwrites the stored handle — so two sampling processes are active
during the passes; the stop at the end of `do_passes` terminates only the
second, leaving the first still running. -/
theorem C7_iostat_double_start :
    (run_io_setup true io_init).running = [0]
    ∧ (run_io_passes_start true (run_io_setup true io_init)).running = [0, 1]
    ∧ (run_io_passes_start true (run_io_setup true io_init)).handle = some 1
    ∧ (run_io_passes_stop true
        (run_io_passes_start true (run_io_setup true io_init))).running = [0]
    ∧ (∀ s : IoState, (run_io_passes_start true s).running.length
        = s.running.length + 1) := by
    refine ⟨by decide, by decide, by decide, by decide, ?_⟩
    intro s
    simp [run_io_passes_start, start_iostat]

/-- Closed form of the `stop_iostat_subprocess` parsing loop for an
arbitrary accumulator: the header becomes the tokenisation of the first line
starting with `"Device"` (unless one was already captured), and the data
rows are the tokenisations of every non-empty line not starting with
`"Device"`, in order. -/
theorem iostat_parse_go (lines : List String) :
    ∀ (hdr : Option (List String)) (rows : List (List String)),
      lines.foldl iostat_parse_step (hdr, rows)
        = (hdr.or ((lines.find? startsWithDevice).map tokens),
           rows ++ (lines.filter (fun l =>
             !(l == "") && !(startsWithDevice l))).map tokens) := by
  induction lines with
  | nil => intro hdr rows; simp
  | cons l ls ih =>
    intro hdr rows
    simp only [List.foldl_cons]
    by_cases hl : l = ""
    · have hdev : startsWithDevice l = false := by rw [hl]; decide
      rw [show iostat_parse_step (hdr, rows) l = (hdr, rows) from by
            simp [iostat_parse_step, hl]]
      rw [ih hdr rows]
      rw [hl] at hdev
      simp [hl, hdev, List.find?_cons, List.filter_cons]
    · cases hd : startsWithDevice l with
      | true =>
        rw [show iostat_parse_step (hdr, rows) l
              = ((if hdr = none then some (tokens l) else hdr), rows) from by
              simp [iostat_parse_step, hl, hd]]
        rw [ih]
        cases hdr with
        | none => simp [hd, hl, List.find?_cons, List.filter_cons]
        | some h0 => simp [hd, hl, List.find?_cons, List.filter_cons]
      | false =>
        rw [show iostat_parse_step (hdr, rows) l
              = (hdr, rows ++ [tokens l]) from by
              simp [iostat_parse_step, hl, hd]]
        rw [ih]
        simp [hd, hl, List.find?_cons, List.filter_cons, List.append_assoc]

/-- C8 amended: when the iostat collector is stopped, its accumulated output
is parsed so that the first line beginning with `"Device"` becomes the
single column-schema row, every subsequent `"Device"` line is skipped, and
every other non-empty line becomes one data row (its whitespace tokens);
equality of every data row's column count with the header's is *not*
guaranteed by the code — a non-empty non-`"Device"` line with a different
token count (e.g. the tool's banner line) yields a shorter or longer row. -/
theorem C8_iostat_parse_shape (lines : List String) :
    (iostat_parse lines).1
        = (lines.find? startsWithDevice).map tokens
    ∧ (iostat_parse lines).2
        = (lines.filter (fun l =>
            !(l == "") && !(startsWithDevice l))).map tokens := by
  unfold iostat_parse
  rw [iostat_parse_go lines none []]
  exact ⟨rfl, rfl⟩

/-- C8 counterexample: on the example output the header has 3 columns but
the banner line becomes a data row with 7 columns, so not every data row of
the written table has the header's column count. -/
theorem C8_counterexample :
    (iostat_parse iostat_example_lines).1.map List.length = some 3
    ∧ (iostat_parse iostat_example_lines).2.map List.length = [7, 3, 3]
    ∧ ¬ (∀ row ∈ (iostat_parse iostat_example_lines).2, row.length = 3) := by
  refine ⟨by decide, by decide, ?_⟩
  intro h
  have h7 := h ((tokens bannerLine)) (by decide)
  revert h7
  decide

end CheckpointBench
